import Mathlib

/-!
Shallow embedding of `Source/SceneManager.cpp` (CS-330 scene manager):
texture registry, material registry, shader-uniform setters and the
model-matrix transform pipeline, together with theorems checking the
specification's claims against this embedding.

Modelling conventions:
* OpenGL texture names produced by `glGenTextures` are modelled by a
  monotone allocator `nextTextureName`; `glDeleteTextures` (never called
  by the source) would append to `deletedTextures`.
* `stbi_load` is an external library; its result is passed in as an
  `Option Image` argument (`none` = file missing/unreadable).
* Color and material scalars are modelled by `ℚ` (the source stores
  `float` literals and never computes with them); angles and matrices by
  `ℝ` because the transform pipeline uses trigonometry.
-/

/-- An image as returned by `stbi_load`: width, height and channel count. -/
structure Image where
  width : Int
  height : Int
  colorChannels : Int
deriving DecidableEq, Repr

/-- Entry of the texture registry `m_textureIDs`: a GL texture name and a tag. -/
structure TEXTURE_ID where
  ID : Nat
  tag : String
deriving DecidableEq, Repr

/-- Entry of `m_objectMaterials` (struct `OBJECT_MATERIAL` from the header). -/
structure OBJECT_MATERIAL where
  diffuseColor : ℚ × ℚ × ℚ
  specularColor : ℚ × ℚ × ℚ
  shininess : ℚ
  tag : String
deriving DecidableEq, Repr

/-- The shader uniforms the scene manager writes: `bUseTexture`,
`objectColor` (RGBA) and the sampler uniform `objectTexture`. -/
structure ShaderState where
  bUseTexture : Bool
  objectColor : ℚ × ℚ × ℚ × ℚ
  objectTexture : Int
deriving DecidableEq, Repr

/-- The mutable state of a `SceneManager` object (fields of the class),
plus the allocator/ledger modelling the GL texture-object namespace. -/
structure SceneState where
  textureIDs : List TEXTURE_ID
  loadedTextures : Nat
  objectMaterials : List OBJECT_MATERIAL
  pShaderManager : Option ShaderState
  nextTextureName : Nat
  deletedTextures : List Nat
deriving DecidableEq, Repr

/-- Modelled from the spec: the header (not in the repository snapshot)
reserves a fixed-size registry array; the spec gives its capacity as 16
("There are up to 16 slots", "a hard cap of 16 units"). -/
def MAX_TEXTURE_SLOTS : Nat := 16

/-- A freshly constructed `SceneManager` with the given shader manager. -/
def initState (sh : Option ShaderState) : SceneState :=
  { textureIDs := []
    loadedTextures := 0
    objectMaterials := []
    pShaderManager := sh
    nextTextureName := 1
    deletedTextures := [] }

/-- `SceneManager::CreateGLTexture` (lines 60-126).  The `stbi_load`
result is the `image` argument.  On a readable image a GL texture object
is generated first (line 83); the channel check happens afterwards, so
an unsupported channel count leaks the generated object but registers
nothing.  On 3 or 4 channels the texture is registered at index
`m_loadedTextures` and the counter is incremented. -/
def CreateGLTexture (image : Option Image) (tag : String) (st : SceneState) :
    Bool × SceneState :=
  match image with
  | none => (false, st)
  | some img =>
      let textureID := st.nextTextureName
      let st1 := { st with nextTextureName := st.nextTextureName + 1 }
      if img.colorChannels = 3 ∨ img.colorChannels = 4 then
        (true,
          { st1 with
            textureIDs := st1.textureIDs ++ [{ ID := textureID, tag := tag }]
            loadedTextures := st1.loadedTextures + 1 })
      else
        (false, st1)

/-- `SceneManager::BindGLTextures` (lines 134-142): for `i` below
`m_loadedTextures`, bind texture unit `GL_TEXTURE0 + i` to the `i`-th
registered texture.  The result is the list of (unit, GL name) bindings
the loop issues. -/
def BindGLTextures (st : SceneState) : List (Nat × Nat) :=
  ((st.textureIDs.take st.loadedTextures).enum).map fun p => (p.1, p.2.ID)

/-- Loop body of `DestroyGLTextures`: each iteration calls
`glGenTextures(1, &m_textureIDs[i].ID)`, overwriting the stored name with
a freshly allocated one.  Returns the rewritten entries and the advanced
allocator. -/
def destroyAux (next : Nat) : List TEXTURE_ID → List TEXTURE_ID × Nat
  | [] => ([], next)
  | e :: rest =>
      let r := destroyAux (next + 1) rest
      ({ e with ID := next } :: r.1, r.2)

/-- `SceneManager::DestroyGLTextures` (lines 150-156): regenerates the
name of every loaded entry; never calls `glDeleteTextures`. -/
def DestroyGLTextures (st : SceneState) : SceneState :=
  let r := destroyAux st.nextTextureName (st.textureIDs.take st.loadedTextures)
  { st with
    textureIDs := r.1 ++ st.textureIDs.drop st.loadedTextures
    nextTextureName := r.2 }

/-- While loop of `FindTextureID` (lines 170-179): first entry whose tag
matches yields its GL name, otherwise -1. -/
def findTextureIDAux (tag : String) : List TEXTURE_ID → Int
  | [] => -1
  | e :: rest => if e.tag = tag then (e.ID : Int) else findTextureIDAux tag rest

/-- `SceneManager::FindTextureID` (lines 164-182). -/
def FindTextureID (st : SceneState) (tag : String) : Int :=
  findTextureIDAux tag (st.textureIDs.take st.loadedTextures)

/-- While loop of `FindTextureSlot` (lines 196-205): first entry whose
tag matches yields its index, otherwise -1. -/
def findTextureSlotAux (tag : String) : Nat → List TEXTURE_ID → Int
  | _, [] => -1
  | index, e :: rest =>
      if e.tag = tag then (index : Int) else findTextureSlotAux tag (index + 1) rest

/-- `SceneManager::FindTextureSlot` (lines 190-208). -/
def FindTextureSlot (st : SceneState) (tag : String) : Int :=
  findTextureSlotAux tag 0 (st.textureIDs.take st.loadedTextures)

/-- While loop of `FindMaterial` (lines 225-238): the first matching
entry is copied into the out-parameter (`some`); `none` means the
out-parameter was left untouched. -/
def findMaterialAux (tag : String) : List OBJECT_MATERIAL → Option OBJECT_MATERIAL
  | [] => none
  | m :: rest => if m.tag = tag then some m else findMaterialAux tag rest

/-- `SceneManager::FindMaterial` (lines 216-241): returns `false` only
when the material list is empty (line 218-221); otherwise the function
falls through to `return(true)` (line 240) whether or not the scan
matched.  The second component is the out-parameter. -/
def FindMaterial (st : SceneState) (tag : String) : Bool × Option OBJECT_MATERIAL :=
  if st.objectMaterials.length = 0 then
    (false, none)
  else
    (true, findMaterialAux tag st.objectMaterials)

/-- `m_objectMaterials.push_back(m)` as used by `DefineObjectMaterials`. -/
def pushBackMaterial (m : OBJECT_MATERIAL) (st : SceneState) : SceneState :=
  { st with objectMaterials := st.objectMaterials ++ [m] }

/-- `woodMaterial` literal from `DefineObjectMaterials` (lines 430-435). -/
def woodMaterial : OBJECT_MATERIAL :=
  { diffuseColor := (0.6, 0.5, 0.4)
    specularColor := (0.5, 0.5, 0.5)
    shininess := 64
    tag := "wood" }

/-- `SceneManager::SetShaderColor` (lines 287-306): with a shader
manager present, sets `bUseTexture` to false and `objectColor` to the
given RGBA; otherwise does nothing. -/
def SetShaderColor (r g b a : ℚ) (st : SceneState) : SceneState :=
  match st.pShaderManager with
  | none => st
  | some sh =>
      { st with
        pShaderManager :=
          some { sh with bUseTexture := false, objectColor := (r, g, b, a) } }

/-- `SceneManager::SetShaderTexture` (lines 314-325): with a shader
manager present, sets `bUseTexture` to true and the sampler uniform to
`FindTextureSlot(textureTag)`. -/
def SetShaderTexture (textureTag : String) (st : SceneState) : SceneState :=
  match st.pShaderManager with
  | none => st
  | some sh =>
      { st with
        pShaderManager :=
          some { sh with
                  bUseTexture := true
                  objectTexture := FindTextureSlot st textureTag } }

/-- `SceneManager::SetShaderMaterial` (lines 347-358), translated from
its own body: it too sets `bUseTexture` to true and the sampler uniform
to `FindTextureSlot(textureTag)`; it never touches `m_objectMaterials`. -/
def SetShaderMaterial (textureTag : String) (st : SceneState) : SceneState :=
  match st.pShaderManager with
  | none => st
  | some sh =>
      { st with
        pShaderManager :=
          some { sh with
                  bUseTexture := true
                  objectTexture := FindTextureSlot st textureTag } }

/-- Fold a list of `(image, tag)` registrations through `CreateGLTexture`,
as `LoadSceneTextures` does call by call. -/
def registerAll : List (Image × String) → SceneState → SceneState
  | [], st => st
  | (img, tag) :: rest, st => registerAll rest (CreateGLTexture (some img) tag st).2

noncomputable section TransformPipeline

open Real

/-- `glm::radians` : degrees to radians. -/
def glmRadians (deg : ℝ) : ℝ := deg * (Real.pi / 180)

/-- `glm::scale(v)` : the 4x4 scaling matrix. -/
def glmScale (v : ℝ × ℝ × ℝ) : Matrix (Fin 4) (Fin 4) ℝ :=
  !![v.1, 0, 0, 0;
     0, v.2.1, 0, 0;
     0, 0, v.2.2, 0;
     0, 0, 0, 1]

/-- `glm::rotate(θ, vec3(1,0,0))` : axis-angle rotation specialised to
the unit X axis. -/
def glmRotateX (θ : ℝ) : Matrix (Fin 4) (Fin 4) ℝ :=
  !![1, 0, 0, 0;
     0, Real.cos θ, -Real.sin θ, 0;
     0, Real.sin θ, Real.cos θ, 0;
     0, 0, 0, 1]

/-- `glm::rotate(θ, vec3(0,1,0))` : axis-angle rotation specialised to
the unit Y axis. -/
def glmRotateY (θ : ℝ) : Matrix (Fin 4) (Fin 4) ℝ :=
  !![Real.cos θ, 0, Real.sin θ, 0;
     0, 1, 0, 0;
     -Real.sin θ, 0, Real.cos θ, 0;
     0, 0, 0, 1]

/-- `glm::rotate(θ, vec3(0,0,1))` : axis-angle rotation specialised to
the unit Z axis. -/
def glmRotateZ (θ : ℝ) : Matrix (Fin 4) (Fin 4) ℝ :=
  !![Real.cos θ, -Real.sin θ, 0, 0;
     Real.sin θ, Real.cos θ, 0, 0;
     0, 0, 1, 0;
     0, 0, 0, 1]

/-- `glm::translate(p)` : the 4x4 translation matrix. -/
def glmTranslate (p : ℝ × ℝ × ℝ) : Matrix (Fin 4) (Fin 4) ℝ :=
  !![1, 0, 0, p.1;
     0, 1, 0, p.2.1;
     0, 0, 1, p.2.2;
     0, 0, 0, 1]

/-- `SceneManager::SetTransformations` (lines 249-279): builds the five
component matrices from the arguments and combines them as
`translation * rotationZ * rotationY * rotationX * scale` (line 273);
the result is the `model` matrix pushed to the shader. -/
def SetTransformations (scaleXYZ : ℝ × ℝ × ℝ)
    (XrotationDegrees YrotationDegrees ZrotationDegrees : ℝ)
    (positionXYZ : ℝ × ℝ × ℝ) : Matrix (Fin 4) (Fin 4) ℝ :=
  let scale := glmScale scaleXYZ
  let rotationX := glmRotateX (glmRadians XrotationDegrees)
  let rotationY := glmRotateY (glmRadians YrotationDegrees)
  let rotationZ := glmRotateZ (glmRadians ZrotationDegrees)
  let translation := glmTranslate positionXYZ
  translation * rotationZ * rotationY * rotationX * scale

end TransformPipeline

lemma glmRadians_zero : glmRadians 0 = 0 := by
  simp [glmRadians]

lemma glmScale_one : glmScale (1, 1, 1) = 1 := by
  ext i j
  fin_cases i <;> fin_cases j <;> simp [glmScale, Matrix.one_apply, Matrix.vecHead, Matrix.vecTail]

lemma glmRotateX_zero : glmRotateX 0 = 1 := by
  ext i j
  fin_cases i <;> fin_cases j <;> simp [glmRotateX, Matrix.one_apply, Matrix.vecHead, Matrix.vecTail]

lemma glmRotateY_zero : glmRotateY 0 = 1 := by
  ext i j
  fin_cases i <;> fin_cases j <;> simp [glmRotateY, Matrix.one_apply, Matrix.vecHead, Matrix.vecTail]

lemma glmRotateZ_zero : glmRotateZ 0 = 1 := by
  ext i j
  fin_cases i <;> fin_cases j <;> simp [glmRotateZ, Matrix.one_apply, Matrix.vecHead, Matrix.vecTail]

lemma glmTranslate_zero : glmTranslate (0, 0, 0) = 1 := by
  ext i j
  fin_cases i <;> fin_cases j <;> simp [glmTranslate, Matrix.one_apply, Matrix.vecHead, Matrix.vecTail]

/-- C1: `SetTransformations` combines the component matrices as
`translation * rotationZ * rotationY * rotationX * scale` (X rotation
innermost), and at scale (1,1,1), rotations 0 and position (0,0,0) the
resulting model matrix is the identity. -/
theorem C1_SetTransformations_order_and_identity :
    (∀ (s : ℝ × ℝ × ℝ) (xr yr zr : ℝ) (p : ℝ × ℝ × ℝ),
        SetTransformations s xr yr zr p =
          glmTranslate p * glmRotateZ (glmRadians zr) * glmRotateY (glmRadians yr) *
            glmRotateX (glmRadians xr) * glmScale s) ∧
    SetTransformations (1, 1, 1) 0 0 0 (0, 0, 0) = 1 := by
  constructor
  · intro s xr yr zr p
    rfl
  · show glmTranslate (0, 0, 0) * glmRotateZ (glmRadians 0) * glmRotateY (glmRadians 0) *
      glmRotateX (glmRadians 0) * glmScale (1, 1, 1) = 1
    rw [glmRadians_zero, glmScale_one, glmRotateX_zero, glmRotateY_zero, glmRotateZ_zero,
      glmTranslate_zero]
    simp

/-- C2: at a state whose material registry holds only `woodMaterial`, the
texture-slot lookup of the unregistered tag "missing" does return the -1
sentinel, but `FindMaterial` on the same unregistered tag returns `true`
(with the out-parameter untouched) instead of the claimed not-found
result, because line 240 returns `true` unconditionally once the list is
non-empty. -/
theorem C2_FindMaterial_miss_returns_true :
    FindTextureSlot (pushBackMaterial woodMaterial (initState none)) "missing" = -1 ∧
    FindMaterial (pushBackMaterial woodMaterial (initState none)) "missing" =
      (true, none) := by
  decide

/-- C3: `SetShaderMaterial` is extensionally equal to `SetShaderTexture`
(it sets the use-texture uniform to true and the sampler to
`FindTextureSlot(tag)`), and its result is independent of the material
registry: changing `m_objectMaterials` changes nothing but that field,
so `FindMaterial`'s diffuse/specular/shininess values are never written
to shader state. -/
theorem C3_SetShaderMaterial_is_SetShaderTexture :
    (∀ (tag : String) (st : SceneState), SetShaderMaterial tag st = SetShaderTexture tag st) ∧
    (∀ (tag : String) (st : SceneState) (mats : List OBJECT_MATERIAL),
        SetShaderMaterial tag { st with objectMaterials := mats } =
          { SetShaderMaterial tag st with objectMaterials := mats }) := by
  constructor
  · intro tag st
    rfl
  · intro tag st mats
    rcases st with ⟨tids, lt, mats0, sh, nn, del⟩
    cases sh <;> rfl

/-- C4: `CreateGLTexture` on an unreadable file (`stbi_load` returns
null) fails and leaves the state untouched; on an image whose channel
count is neither 3 nor 4 it fails, appends no entry (registry list and
counter unchanged), and the tag resolves to no texture resource
afterwards exactly as before. -/
theorem C4_CreateGLTexture_failure_paths (tag : String) (st : SceneState) (img : Image)
    (h3 : img.colorChannels ≠ 3) (h4 : img.colorChannels ≠ 4) :
    CreateGLTexture none tag st = (false, st) ∧
    (CreateGLTexture (some img) tag st).1 = false ∧
    ((CreateGLTexture (some img) tag st).2).textureIDs = st.textureIDs ∧
    ((CreateGLTexture (some img) tag st).2).loadedTextures = st.loadedTextures ∧
    FindTextureID ((CreateGLTexture (some img) tag st).2) tag = FindTextureID st tag ∧
    FindTextureSlot ((CreateGLTexture (some img) tag st).2) tag = FindTextureSlot st tag := by
  have hcond : ¬(img.colorChannels = 3 ∨ img.colorChannels = 4) := by tauto
  refine ⟨rfl, ?_, ?_, ?_, ?_, ?_⟩ <;>
    simp [CreateGLTexture, hcond, FindTextureID, FindTextureSlot]

/-- Witness for C4 at a concrete 1-channel (grayscale) 2x2 image. -/
theorem C4_witness :
    CreateGLTexture none "gray" (initState none) = (false, initState none) ∧
    (CreateGLTexture (some ⟨2, 2, 1⟩) "gray" (initState none)).1 = false ∧
    ((CreateGLTexture (some ⟨2, 2, 1⟩) "gray" (initState none)).2).textureIDs =
      (initState none).textureIDs ∧
    ((CreateGLTexture (some ⟨2, 2, 1⟩) "gray" (initState none)).2).loadedTextures =
      (initState none).loadedTextures ∧
    FindTextureID ((CreateGLTexture (some ⟨2, 2, 1⟩) "gray" (initState none)).2) "gray" =
      FindTextureID (initState none) "gray" ∧
    FindTextureSlot ((CreateGLTexture (some ⟨2, 2, 1⟩) "gray" (initState none)).2) "gray" =
      FindTextureSlot (initState none) "gray" :=
  C4_CreateGLTexture_failure_paths "gray" (initState none) ⟨2, 2, 1⟩ (by decide) (by decide)

lemma registerAll_spec (regs : List (Image × String)) :
    ∀ st : SceneState,
      (∀ r ∈ regs, r.1.colorChannels = 3 ∨ r.1.colorChannels = 4) →
      (registerAll regs st).textureIDs.map TEXTURE_ID.tag =
          st.textureIDs.map TEXTURE_ID.tag ++ regs.map Prod.snd ∧
      (registerAll regs st).loadedTextures = st.loadedTextures + regs.length ∧
      (registerAll regs st).textureIDs.length = st.textureIDs.length + regs.length := by
  induction regs with
  | nil => intro st _; simp [registerAll]
  | cons r rest ih =>
      intro st h
      obtain ⟨img, tag⟩ := r
      have hv : img.colorChannels = 3 ∨ img.colorChannels = 4 := h (img, tag) (by simp)
      have hrest : ∀ x ∈ rest, x.1.colorChannels = 3 ∨ x.1.colorChannels = 4 :=
        fun x hx => h x (by simp [hx])
      have hstep : (CreateGLTexture (some img) tag st).2 =
          { st with
            nextTextureName := st.nextTextureName + 1
            textureIDs := st.textureIDs ++ [{ ID := st.nextTextureName, tag := tag }]
            loadedTextures := st.loadedTextures + 1 } := by
        simp [CreateGLTexture, hv]
      obtain ⟨h1, h2, h3⟩ := ih ((CreateGLTexture (some img) tag st).2) hrest
      rw [hstep] at h1 h2 h3
      refine ⟨?_, ?_, ?_⟩
      · show (registerAll rest (CreateGLTexture (some img) tag st).2).textureIDs.map
            TEXTURE_ID.tag = _
        rw [hstep, h1]
        simp
      · show (registerAll rest (CreateGLTexture (some img) tag st).2).loadedTextures = _
        rw [hstep, h2]
        simp [Nat.add_assoc, Nat.add_comm 1 rest.length]
      · show (registerAll rest (CreateGLTexture (some img) tag st).2).textureIDs.length = _
        rw [hstep, h3]
        simp
        omega

lemma findTextureSlotAux_getElem (L : List TEXTURE_ID) :
    ∀ (k i : Nat) (hi : i < L.length), (L.map TEXTURE_ID.tag).Nodup →
      findTextureSlotAux (L[i].tag) k L = ((k : Int) + i) := by
  induction L with
  | nil => intro k i hi; simp at hi
  | cons e rest ih =>
      intro k i hi hnd
      rw [List.map_cons, List.nodup_cons] at hnd
      cases i with
      | zero => simp [findTextureSlotAux]
      | succ j =>
          have hj : j < rest.length := by simpa using hi
          have hmem : rest[j].tag ∈ rest.map TEXTURE_ID.tag :=
            List.mem_map_of_mem _ (List.getElem_mem hj)
          have hne : ¬e.tag = rest[j].tag := fun hEq => hnd.1 (hEq ▸ hmem)
          simp only [List.getElem_cons_succ, findTextureSlotAux, hne, if_false]
          rw [ih (k + 1) j hj hnd.2]
          push_cast
          ring

/-- C5: starting from an empty registry, after any sequence of successful
registrations (valid 3- or 4-channel images) with pairwise-distinct tags,
`FindTextureSlot` on the `i`-th registered tag returns exactly `i`: a
stable, unique, non-negative index equal to insertion order. -/
theorem C5_FindTextureSlot_insertion_order (regs : List (Image × String))
    (st : SceneState)
    (hval : ∀ r ∈ regs, r.1.colorChannels = 3 ∨ r.1.colorChannels = 4)
    (hdist : (regs.map Prod.snd).Nodup)
    (hids : st.textureIDs = []) (hcnt : st.loadedTextures = 0)
    (i : Nat) (hi : i < regs.length) :
    FindTextureSlot (registerAll regs st) regs[i].2 = (i : Int) := by
  obtain ⟨htags, hcount, hlen⟩ := registerAll_spec regs st hval
  rw [hids] at htags hlen
  rw [hcnt] at hcount
  simp only [List.map_nil, List.nil_append, List.length_nil, Nat.zero_add] at htags hlen hcount
  have hi' : i < (registerAll regs st).textureIDs.length := by
    rw [hlen]; simpa using hi
  have hb1 : i < ((registerAll regs st).textureIDs.map TEXTURE_ID.tag).length := by
    simpa using hi'
  have hb2 : i < (regs.map Prod.snd).length := by simpa using hi
  have htag : (registerAll regs st).textureIDs[i].tag = regs[i].2 := by
    calc (registerAll regs st).textureIDs[i].tag
        = ((registerAll regs st).textureIDs.map TEXTURE_ID.tag)[i] :=
          (List.getElem_map _).symm
      _ = (regs.map Prod.snd)[i] := by simp only [htags]
      _ = regs[i].2 := List.getElem_map _
  have hNodup : ((registerAll regs st).textureIDs.map TEXTURE_ID.tag).Nodup := by
    rw [htags]; exact hdist
  have hmain := findTextureSlotAux_getElem (registerAll regs st).textureIDs 0 i hi' hNodup
  rw [htag] at hmain
  have htake : (registerAll regs st).textureIDs.take (registerAll regs st).loadedTextures =
      (registerAll regs st).textureIDs := by
    rw [hcount, ← hlen]
    exact List.take_length _
  show findTextureSlotAux regs[i].2 0
      ((registerAll regs st).textureIDs.take (registerAll regs st).loadedTextures) = (i : Int)
  rw [htake, hmain]
  simp

/-- Witness for C5: register "wood" then "glasscup" from a fresh state;
the slot of "glasscup" (the second registered tag) is 1. -/
theorem C5_witness :
    FindTextureSlot
      (registerAll [((⟨2, 2, 3⟩ : Image), "wood"), ((⟨2, 2, 4⟩ : Image), "glasscup")]
        (initState none)) "glasscup" = 1 :=
  C5_FindTextureSlot_insertion_order
    [((⟨2, 2, 3⟩ : Image), "wood"), ((⟨2, 2, 4⟩ : Image), "glasscup")]
    (initState none) (by decide) (by decide) rfl rfl 1 (by decide)

/-- The state reached by registering a 3-channel "wood" image and then a
4-channel "glasscup" image on a fresh scene manager. -/
def woodGlassState : SceneState :=
  registerAll [((⟨2, 2, 3⟩ : Image), "wood"), ((⟨2, 2, 4⟩ : Image), "glasscup")]
    (initState none)

/-- C6: `BindGLTextures` binds the `i`-th registered entry to hardware
texture unit `i` (sequential from 0 in insertion order); concretely,
after registering "wood" then "glasscup", unit 0 gets "wood"'s GL name
(1) and unit 1 gets "glasscup"'s GL name (2). -/
theorem C6_BindGLTextures_sequential_units :
    (∀ (st : SceneState) (i : Nat) (e : TEXTURE_ID), i < st.loadedTextures →
        st.textureIDs[i]? = some e → (BindGLTextures st)[i]? = some (i, e.ID)) ∧
    (woodGlassState.textureIDs.map TEXTURE_ID.tag = ["wood", "glasscup"] ∧
     BindGLTextures woodGlassState = [(0, 1), (1, 2)] ∧
     FindTextureID woodGlassState "wood" = 1 ∧
     FindTextureID woodGlassState "glasscup" = 2) := by
  constructor
  · intro st i e hcnt hget
    show (((st.textureIDs.take st.loadedTextures).enum).map fun p => (p.1, p.2.ID))[i]? =
      some (i, e.ID)
    rw [List.getElem?_map, List.getElem?_enum, List.getElem?_take]
    simp [hcnt, hget]
  · decide

/-- Witness for C6: the general binding law applied to the concrete
wood/glasscup state at index 0. -/
theorem C6_witness :
    (BindGLTextures woodGlassState)[0]? = some (0, 1) :=
  C6_BindGLTextures_sequential_units.1 woodGlassState 0 { ID := 1, tag := "wood" }
    (by decide) (by decide)

/-- Duplicate of the source's wood material with a different shininess,
used to exercise the duplicate-tag tie-break. -/
def woodMaterialDup : OBJECT_MATERIAL := { woodMaterial with shininess := 10 }

/-- C7: `push_back` permits duplicate material tags, and `FindMaterial`
resolves to the first-inserted entry: after defining two materials
tagged "wood", lookup returns the first-defined values. -/
theorem C7_duplicate_material_first_wins (st : SceneState) (m1 m2 : OBJECT_MATERIAL)
    (h0 : st.objectMaterials = []) (h1 : m1.tag = "wood") (_h2 : m2.tag = "wood") :
    (pushBackMaterial m2 (pushBackMaterial m1 st)).objectMaterials = [m1, m2] ∧
    FindMaterial (pushBackMaterial m2 (pushBackMaterial m1 st)) "wood" =
      (true, some m1) := by
  constructor
  · simp [pushBackMaterial, h0]
  · simp [FindMaterial, pushBackMaterial, h0, findMaterialAux, h1]

/-- Witness for C7: the source's wood material followed by a duplicate
with shininess 10; lookup returns the first (shininess 64). -/
theorem C7_witness :
    (pushBackMaterial woodMaterialDup
        (pushBackMaterial woodMaterial (initState none))).objectMaterials =
      [woodMaterial, woodMaterialDup] ∧
    FindMaterial (pushBackMaterial woodMaterialDup
        (pushBackMaterial woodMaterial (initState none))) "wood" =
      (true, some woodMaterial) :=
  C7_duplicate_material_first_wins (initState none) woodMaterial woodMaterialDup rfl rfl rfl

/-- The state reached by 16 successful registrations from a fresh scene
manager: the fixed-size registry (capacity `MAX_TEXTURE_SLOTS` = 16) is
exactly full. -/
def fullRegistryState : SceneState :=
  registerAll ((List.range MAX_TEXTURE_SLOTS).map
    fun i => ((⟨2, 2, 3⟩ : Image), "tex" ++ toString i)) (initState none)

/-- C8 counterexample: texture registration does NOT bounds-check the
counter against the 16-slot capacity.  At the reachable state with 16
registered textures, a 17th registration neither fails nor is rejected:
it succeeds, so the claim's bounds-check property is false. -/
theorem C8_counterexample_no_bounds_check :
    ¬(∀ (st : SceneState) (img : Image) (tag : String),
        (CreateGLTexture (some img) tag st).1 = true →
        st.loadedTextures < MAX_TEXTURE_SLOTS) := by
  intro h
  have h16 : fullRegistryState.loadedTextures = 16 := by decide
  have := h fullRegistryState ⟨2, 2, 3⟩ "overflow" (by decide)
  rw [h16] at this
  exact absurd this (by decide)

/-- C8 (amended): `CreateGLTexture` performs no capacity check at all:
for any state, a registration with a valid 3- or 4-channel image returns
success, increments the counter and appends the entry at index
`m_loadedTextures` — including when the registry already holds
`MAX_TEXTURE_SLOTS` entries, in which case the write lands one past the
fixed array's capacity. -/
theorem C8_CreateGLTexture_no_capacity_check (st : SceneState) (img : Image) (tag : String)
    (hv : img.colorChannels = 3 ∨ img.colorChannels = 4) :
    (CreateGLTexture (some img) tag st).1 = true ∧
    ((CreateGLTexture (some img) tag st).2).loadedTextures = st.loadedTextures + 1 ∧
    ((CreateGLTexture (some img) tag st).2).textureIDs =
      st.textureIDs ++ [{ ID := st.nextTextureName, tag := tag }] := by
  refine ⟨?_, ?_, ?_⟩ <;> simp [CreateGLTexture, hv]

/-- Witness for the amended C8: the 17th registration at the full
registry succeeds and writes past the 16-entry capacity. -/
theorem C8_witness :
    (CreateGLTexture (some ⟨2, 2, 3⟩) "overflow" fullRegistryState).1 = true ∧
    ((CreateGLTexture (some ⟨2, 2, 3⟩) "overflow" fullRegistryState).2).loadedTextures =
      fullRegistryState.loadedTextures + 1 ∧
    ((CreateGLTexture (some ⟨2, 2, 3⟩) "overflow" fullRegistryState).2).textureIDs =
      fullRegistryState.textureIDs ++
        [{ ID := fullRegistryState.nextTextureName, tag := "overflow" }] :=
  C8_CreateGLTexture_no_capacity_check fullRegistryState ⟨2, 2, 3⟩ "overflow" (Or.inl rfl)

lemma destroyAux_spec (l : List TEXTURE_ID) :
    ∀ next : Nat,
      (destroyAux next l).1.map TEXTURE_ID.tag = l.map TEXTURE_ID.tag ∧
      (destroyAux next l).1.map TEXTURE_ID.ID = List.range' next l.length ∧
      (destroyAux next l).2 = next + l.length := by
  induction l with
  | nil => intro next; simp [destroyAux]
  | cons e rest ih =>
      intro next
      obtain ⟨h1, h2, h3⟩ := ih (next + 1)
      refine ⟨?_, ?_, ?_⟩
      · simp [destroyAux, h1]
      · simp [destroyAux, h2, List.range'_succ]
      · simp [destroyAux, h3]
        omega

/-- C9: `DestroyGLTextures` regenerates rather than deletes: the count
and tags of the loaded entries are unchanged, nothing is ever released
(the deleted-texture ledger stays empty as it was), every stored GL name
is overwritten with a freshly generated handle, and — when all stored
names were previously allocated — none of the new names equals any old
one, so the old handles are leaked, not freed. -/
theorem C9_DestroyGLTextures_regenerates (st : SceneState)
    (hlen : st.loadedTextures = st.textureIDs.length) :
    (DestroyGLTextures st).loadedTextures = st.loadedTextures ∧
    (DestroyGLTextures st).textureIDs.map TEXTURE_ID.tag =
      st.textureIDs.map TEXTURE_ID.tag ∧
    (DestroyGLTextures st).deletedTextures = st.deletedTextures ∧
    (DestroyGLTextures st).textureIDs.map TEXTURE_ID.ID =
      List.range' st.nextTextureName st.textureIDs.length ∧
    ((∀ e ∈ st.textureIDs, e.ID < st.nextTextureName) →
      ∀ e2 ∈ (DestroyGLTextures st).textureIDs, ∀ e1 ∈ st.textureIDs,
        e2.ID ≠ e1.ID) := by
  have htake : st.textureIDs.take st.loadedTextures = st.textureIDs := by
    rw [hlen]; exact List.take_length _
  have hdrop : st.textureIDs.drop st.loadedTextures = [] := by
    rw [hlen]; exact List.drop_length _
  obtain ⟨h1, h2, h3⟩ := destroyAux_spec st.textureIDs st.nextTextureName
  have hres : DestroyGLTextures st =
      { st with
        textureIDs := (destroyAux st.nextTextureName st.textureIDs).1
        nextTextureName := (destroyAux st.nextTextureName st.textureIDs).2 } := by
    simp [DestroyGLTextures, htake, hdrop]
  refine ⟨?_, ?_, ?_, ?_, ?_⟩
  · rw [hres]
  · rw [hres]; exact h1
  · rw [hres]
  · rw [hres]; exact h2
  · intro hfresh e2 he2 e1 he1
    rw [hres] at he2
    have hid2 : e2.ID ∈ List.range' st.nextTextureName st.textureIDs.length := by
      rw [← h2]
      exact List.mem_map_of_mem _ he2
    have hge : st.nextTextureName ≤ e2.ID := (List.mem_range'_1.mp hid2).1
    have hlt : e1.ID < st.nextTextureName := hfresh e1 he1
    omega

/-- Witness for C9 at the concrete wood/glasscup state (2 loaded
textures with GL names 1 and 2; allocator at 3). -/
theorem C9_witness :
    (DestroyGLTextures woodGlassState).loadedTextures = woodGlassState.loadedTextures ∧
    (DestroyGLTextures woodGlassState).textureIDs.map TEXTURE_ID.tag =
      woodGlassState.textureIDs.map TEXTURE_ID.tag ∧
    (DestroyGLTextures woodGlassState).deletedTextures = woodGlassState.deletedTextures ∧
    (DestroyGLTextures woodGlassState).textureIDs.map TEXTURE_ID.ID =
      List.range' woodGlassState.nextTextureName woodGlassState.textureIDs.length ∧
    ((∀ e ∈ woodGlassState.textureIDs, e.ID < woodGlassState.nextTextureName) →
      ∀ e2 ∈ (DestroyGLTextures woodGlassState).textureIDs,
        ∀ e1 ∈ woodGlassState.textureIDs, e2.ID ≠ e1.ID) :=
  C9_DestroyGLTextures_regenerates woodGlassState (by decide)

/-- The shader-uniform state used by concrete witnesses. -/
def defaultShader : ShaderState :=
  { bUseTexture := false, objectColor := (0, 0, 0, 0), objectTexture := 0 }

/-- C10: with a shader manager present, `SetShaderColor` sets the
use-texture uniform to false and the color uniform to the given RGBA,
while `SetShaderTexture` sets the use-texture uniform to true (and the
sampler to the tag's slot), so after either call the flag records
exactly which mode was selected last. -/
theorem C10_color_texture_mutually_exclusive (st : SceneState) (sh : ShaderState)
    (r g b a : ℚ) (tag : String) (hsh : st.pShaderManager = some sh) :
    (SetShaderColor r g b a st).pShaderManager =
      some { sh with bUseTexture := false, objectColor := (r, g, b, a) } ∧
    (SetShaderTexture tag st).pShaderManager =
      some { sh with bUseTexture := true, objectTexture := FindTextureSlot st tag } := by
  rcases st with ⟨tids, lt, mats, shm, nn, del⟩
  cases hsh
  exact ⟨rfl, rfl⟩

/-- Witness for C10 on a fresh manager holding a shader: red color then
the (unregistered) "wood" texture. -/
theorem C10_witness :
    (SetShaderColor 1 0 0 1 (initState (some defaultShader))).pShaderManager =
      some { defaultShader with bUseTexture := false, objectColor := (1, 0, 0, 1) } ∧
    (SetShaderTexture "wood" (initState (some defaultShader))).pShaderManager =
      some { defaultShader with
              bUseTexture := true
              objectTexture := FindTextureSlot (initState (some defaultShader)) "wood" } :=
  C10_color_texture_mutually_exclusive (initState (some defaultShader)) defaultShader
    1 0 0 1 "wood" rfl
